import Mathlib

/-!
# Verification of the aig_pic job-processing subsystem

Shallow embedding of the task lifecycle, persistence operations, startup
recovery, retrying downloader and broadcast mechanism of the repository
(`src/app.py`, `src/src/tasks.py`, `src/src/db.py`, `src/src/client.py`,
`src/src/config.py`), together with theorems settling the specification
claims.

Conventions of the embedding:
* Python `Optional[str]` columns / fields become `Option String`; Python
  truthiness of such a value (`if x:`) is `pyTruthy` (false for `None` and
  for the empty string).
* The SQLite `tasks` table becomes a `List TaskRecord`; a SQL `UPDATE`
  becomes a `List.map` that rewrites the matching rows.
* The filesystem and the network are abstracted: a download attempt is an
  oracle `Nat → Option String` giving, per 1-based attempt number, `none`
  for a raised exception or `some content_type` for a 200 response.
-/

namespace AigPic

/-- Task status, from `TaskStatus` in `src/src/tasks.py` (lines 20-24). -/
inductive TaskStatus where
  | queued
  | running
  | succeeded
  | failed
deriving DecidableEq, Repr

/-- Python truthiness of an `Optional[str]` value: `None` and `""` are falsy. -/
def pyTruthy : Option String → Bool
  | none => false
  | some s => !(s = "")

/-- One row of the `tasks` table, from the schema in `src/src/db.py`
(lines 21-33).  `task_id`, `prompt`, `n` are `NOT NULL`; the remaining
columns are nullable. -/
structure TaskRecord where
  task_id : String
  status : TaskStatus
  prompt : String
  n : Nat
  created_at : Option String
  started_at : Option String
  finished_at : Option String
  results : Option String
  error : Option String
  config_name : Option String
deriving DecidableEq, Repr

/-- `reset_running_tasks_to_queued` from `src/src/db.py` (lines 317-339):
`UPDATE tasks SET status='queued', started_at=NULL, finished_at=NULL,
error=NULL|reason WHERE status='running'`.  With `reason = None` the error
column is set to NULL, with `reason` a string it is set to that string:
both branches are `error := reason`. -/
def reset_running_tasks_to_queued (reason : Option String) (db : List TaskRecord) :
    List TaskRecord :=
  db.map fun r =>
    if r.status = TaskStatus.running then
      { r with status := TaskStatus.queued, started_at := none, finished_at := none,
               error := reason }
    else r

/-- The column rewrite performed by `update_task_status` in `src/src/db.py`
(lines 284-314) on a matching row: `status` is always in the `SET` list;
each of `started_at`, `finished_at`, `results`, `error` is added to the
`SET` list only when the corresponding Python argument is truthy. -/
def updateRecord (status : TaskStatus)
    (started_at finished_at results error : Option String)
    (r : TaskRecord) : TaskRecord :=
  { r with
    status := status,
    started_at := if pyTruthy started_at then started_at else r.started_at,
    finished_at := if pyTruthy finished_at then finished_at else r.finished_at,
    results := if pyTruthy results then results else r.results,
    error := if pyTruthy error then error else r.error }

/-- `update_task_status` from `src/src/db.py` (lines 284-314):
`UPDATE tasks SET ... WHERE task_id = ?`. -/
def update_task_status (task_id : String) (status : TaskStatus)
    (started_at finished_at results error : Option String)
    (db : List TaskRecord) : List TaskRecord :=
  db.map fun r =>
    if r.task_id = task_id then updateRecord status started_at finished_at results error r
    else r

/-- One entry of `api_configs` in the config file, as consumed by
`select_config` (`src/src/config.py`) and by the settings construction in
`src/app.py` / `src/src/tasks.py`.  A missing JSON key is `none`. -/
structure ApiConfig where
  name : Option String
  base_url : Option String
  api_key : Option String
  model : Option String
  proxy : Option String
deriving DecidableEq, Repr

/-- `select_config` from `src/src/config.py` (lines 34-42): when the requested
name is truthy, scan for the first config whose `name` equals it; on a miss —
including when no config carries the requested name — fall back to the first
config of the list; `None` only when the list is empty. -/
def select_config (config_name : Option String) (configs : List ApiConfig) :
    Option ApiConfig :=
  if pyTruthy config_name then
    match configs.find? (fun c => c.name == config_name) with
    | some c => some c
    | none => configs.head?
  else configs.head?

/-- Python `str.rstrip("/")`, used on `base_url`. -/
def rstripSlash (s : String) : String :=
  String.mk ((s.toList.reverse.dropWhile (fun c => c == '/')).reverse)

/-- The clamp in `get_max_concurrent` (`src/src/config.py` lines 25-31):
the configured value is forced into `[1, 10]`. -/
def get_max_concurrent (raw : Int) : Nat :=
  (max 1 (min 10 raw)).toNat

/-- The settings snapshot dict built identically in `create_task`
(`src/app.py` lines 165-171) and in `requeue_pending_tasks`
(`src/src/tasks.py` lines 217-223). -/
structure Settings where
  base_url : String
  api_key : String
  model : String
  proxy : Option String
  max_concurrent : Nat
deriving DecidableEq, Repr

/-- Building the settings snapshot from a resolved config and the process-wide
`get_max_concurrent()` value, as in `src/app.py` lines 165-171 and
`src/src/tasks.py` lines 217-223. -/
def buildSettings (config : ApiConfig) (maxConc : Nat) : Settings :=
  { base_url := rstripSlash (config.base_url.getD ""),
    api_key := config.api_key.getD "",
    model := config.model.getD "grok-imagine-1.0",
    proxy := config.proxy,
    max_concurrent := maxConc }

/-- The in-memory `Task` object (`src/src/tasks.py` lines 27-42), restricted
to the fields the claims touch. -/
structure MemTask where
  task_id : String
  status : TaskStatus
  prompt : String
  n : Nat
  settings : Settings
  created_at : Option String
  config_name : Option String
  image_data : Option String
deriving DecidableEq, Repr

/-- The queue-relevant state of `TaskQueue` (`src/src/tasks.py` lines 58-68):
the in-memory map `self.tasks` (an association list in insertion order, since
Python dicts preserve it) and the FIFO `self.queue` of task ids. -/
structure QueueState where
  tasks : List (String × MemTask)
  queue : List String
deriving DecidableEq, Repr

/-- Python `task_id in self.tasks`: key membership in the in-memory map. -/
def QueueState.hasTask (st : QueueState) (id : String) : Bool :=
  st.tasks.any (fun p => p.1 == id)

/-- The status mutations performed by the worker loop `TaskQueue._worker` in
`src/src/tasks.py` (lines 85-161) on the task it dequeued: the dequeued task
(enqueued as `queued` by `create_task` / `requeue_pending_tasks`) is set to
`running` (line 101), then to exactly one of `succeeded` (line 128) or
`failed` (line 133). -/
inductive WorkerStep : TaskStatus → TaskStatus → Prop
  | dequeue : WorkerStep TaskStatus.queued TaskStatus.running
  | succeed : WorkerStep TaskStatus.running TaskStatus.succeeded
  | fail : WorkerStep TaskStatus.running TaskStatus.failed

/-- All status edges the system performs on a task: the worker edges, plus the
startup-recovery demotion performed by `reset_running_tasks_to_queued` in
`src/src/db.py` (lines 317-339), which rewrites a persisted `running` status
back to `queued`. -/
inductive SysStep : TaskStatus → TaskStatus → Prop
  | worker : WorkerStep s t → SysStep s t
  | recover : SysStep TaskStatus.running TaskStatus.queued

/-- Modelled from the claim's words, for comparison with the code's edges:
the edge set `queued → running → {succeeded, failed}` that C2 asserts is the
only one the status ever moves along. -/
def specLegalEdge : TaskStatus → TaskStatus → Bool
  | TaskStatus.queued, TaskStatus.running => true
  | TaskStatus.running, TaskStatus.succeeded => true
  | TaskStatus.running, TaskStatus.failed => true
  | _, _ => false

/-- Progress order of the claim: `queued` before `running` before terminal. -/
def statusRank : TaskStatus → Nat
  | TaskStatus.queued => 0
  | TaskStatus.running => 1
  | TaskStatus.succeeded => 2
  | TaskStatus.failed => 2

/-- One iteration of the loop in `TaskQueue.requeue_pending_tasks`
(`src/src/tasks.py` lines 206-240) over one persisted queued record: skip a
falsy or already-resident id, skip when no config resolves, skip when the
re-resolved settings lack `base_url` or `api_key`; otherwise build the
in-memory `Task`, insert it in the map and put its id on the queue. -/
def requeueStep (configs : List ApiConfig) (maxConc : Nat)
    (st : QueueState) (td : TaskRecord) : QueueState :=
  if td.task_id = "" || st.hasTask td.task_id then st
  else
    match select_config td.config_name configs with
    | none => st
    | some config =>
        let settings := buildSettings config maxConc
        if settings.base_url = "" || settings.api_key = "" then st
        else
          let task : MemTask :=
            { task_id := td.task_id, status := TaskStatus.queued, prompt := td.prompt,
              n := td.n, settings := settings, created_at := td.created_at,
              config_name := td.config_name, image_data := none }
          ⟨st.tasks ++ [(td.task_id, task)], st.queue ++ [td.task_id]⟩

/-- `TaskQueue.requeue_pending_tasks` (`src/src/tasks.py` lines 197-244):
fold the loop body over the persisted records whose status is `queued`
(`list_tasks_by_status`; its `ORDER BY created_at` is abstracted to stored
order — the properties proved are order-independent).  The function touches
the database only through that SELECT, so the table is returned unchanged. -/
def requeue_pending_tasks (configs : List ApiConfig) (maxConc : Nat)
    (db : List TaskRecord) (st : QueueState) : QueueState × List TaskRecord :=
  ((db.filter (fun r => r.status == TaskStatus.queued)).foldl
      (requeueStep configs maxConc) st,
    db)

/-- A task-creation request after FastAPI body validation (`TaskCreate` in
`src/app.py` lines 47-51: prompt non-empty, `n ∈ [1,10]`). -/
structure TaskCreate where
  prompt : String
  n : Nat
  config_name : Option String
  image_data : Option String
deriving DecidableEq, Repr

/-- The error responses the `create_task` endpoint can return before anything
is persisted (`src/app.py` lines 158-174). -/
inductive CreateTaskError where
  | configNotFound
  | refImageCountNotOne
  | missingCredentials
deriving DecidableEq, Repr

/-- `TaskQueue.create_task` (`src/src/tasks.py` lines 163-195): build the
in-memory `Task`, insert it in the map, insert the `queued` row into the
tasks table (`insert_task`), and put the id on the FIFO queue. -/
def queue_create_task (req : TaskCreate) (settings : Settings) (newId : String)
    (created_at : String) (db : List TaskRecord) (st : QueueState) :
    List TaskRecord × QueueState :=
  let task : MemTask :=
    { task_id := newId, status := TaskStatus.queued, prompt := req.prompt, n := req.n,
      settings := settings, created_at := some created_at, config_name := req.config_name,
      image_data := req.image_data }
  let row : TaskRecord :=
    { task_id := newId, status := TaskStatus.queued, prompt := req.prompt, n := req.n,
      created_at := some created_at, started_at := none, finished_at := none,
      results := none, error := none, config_name := req.config_name }
  (db ++ [row], ⟨st.tasks ++ [(newId, task)], st.queue ++ [newId]⟩)

/-- The `create_task` endpoint of `src/app.py` (lines 143-203): resolve the
config, reject a truthy reference image with `n != 1`, build the settings
snapshot, reject missing credentials, then delegate to
`TaskQueue.create_task`.  The fresh uuid and the wall-clock timestamp are
parameters; the first component is the HTTP outcome, the others the
resulting table and queue state. -/
def app_create_task (configs : List ApiConfig) (maxConc : Nat) (req : TaskCreate)
    (newId created_at : String) (db : List TaskRecord) (st : QueueState) :
    Except CreateTaskError String × List TaskRecord × QueueState :=
  match select_config req.config_name configs with
  | none => (Except.error CreateTaskError.configNotFound, db, st)
  | some config =>
      if pyTruthy req.image_data && decide (req.n ≠ 1) then
        (Except.error CreateTaskError.refImageCountNotOne, db, st)
      else
        let settings := buildSettings config maxConc
        if settings.base_url = "" || settings.api_key = "" then
          (Except.error CreateTaskError.missingCredentials, db, st)
        else
          let out := queue_create_task req settings newId created_at db st
          (Except.ok newId, out.1, out.2)

/-- The actual skip condition of the requeue loop for a record whose id is
fresh: no config resolves at all (`select_config` returns `None`, which per
its definition means the config list is empty), or the config that does
resolve — the named one, else the first as fallback — yields an empty
`base_url` or `api_key` in the rebuilt settings. -/
def cannotResolve (configs : List ApiConfig) (maxConc : Nat) (td : TaskRecord) : Bool :=
  match select_config td.config_name configs with
  | none => true
  | some config =>
      (buildSettings config maxConc).base_url = "" ||
        (buildSettings config maxConc).api_key = ""

/-- Bool test that `pat` occurs as a contiguous substring of `s`
(Python `pat in s`). -/
def containsSub : List Char → List Char → Bool
  | [], pat => pat.isEmpty
  | c :: tail, pat => pat.isPrefixOf (c :: tail) || containsSub tail pat

/-- Python `pat in s` on strings. -/
def strContains (s pat : String) : Bool :=
  containsSub s.toList pat.toList

/-- Python `s.endswith(pat)`. -/
def strEndsWith (s pat : String) : Bool :=
  pat.toList.isSuffixOf s.toList

/-- The file-extension choice of `_download_single_image`
(`src/src/client.py` lines 229-236): first branch picks `jpg` when the
content-type mentions `jpeg` or `jpg` or the URL ends in `.jpg`; second
branch picks `png` when the content-type mentions `png` or the URL ends in
`.png`; otherwise the default `jpg`. -/
def extFor (content_type image_url : String) : String :=
  if strContains content_type "jpeg" || strContains content_type "jpg"
      || strEndsWith image_url ".jpg" then "jpg"
  else if strContains content_type "png" || strEndsWith image_url ".png" then "png"
  else "jpg"

/-- Outcome of one run of the downloader's retry loop: the saved filename
(`none` when the final attempt re-raised), the number of attempts made, and
the number of `asyncio.sleep(1)` delays taken. -/
structure DownloadOutcome where
  result : Option String
  attemptsMade : Nat
  slept : Nat
deriving DecidableEq, Repr

/-- The retry loop of `_download_single_image` (`src/src/client.py` lines
222-258) over the list of remaining 1-based attempt numbers.  `att a` is
`none` when attempt `a` raises and `some content_type` when it returns a 200
response with that content-type header (the filesystem write is abstracted:
the computed filename contains no path separator, so the path check always
passes).  On success the image is saved as
`{timestamp}_{short_id}_{idx}.{ext}` and that filename is returned; a failing
attempt sleeps one second and retries unless it was the last attempt, in
which case the exception propagates (`result = none`). -/
def runAttempts (att : Nat → Option String) (image_url timestamp short_id : String)
    (idx : Nat) : List Nat → Nat → Nat → DownloadOutcome
  | [], made, slept => ⟨none, made, slept⟩
  | a :: rest, made, slept =>
      match att a with
      | some content_type =>
          ⟨some (timestamp ++ "_" ++ short_id ++ "_" ++ toString idx ++ "."
              ++ extFor content_type image_url),
            made + 1, slept⟩
      | none =>
          if rest.isEmpty then ⟨none, made + 1, slept⟩
          else runAttempts att image_url timestamp short_id idx rest (made + 1) (slept + 1)

/-- `_download_single_image` (`src/src/client.py` lines 213-258): the loop
runs `for attempt in range(1, max_retries + 1)`. -/
def download_single_image (att : Nat → Option String)
    (image_url timestamp short_id : String) (idx : Nat) (max_retries : Nat) :
    DownloadOutcome :=
  runAttempts att image_url timestamp short_id idx (List.range' 1 max_retries) 0 0

/-- `_download_single_image` as it is actually invoked
(`download_with_semaphore`, `src/src/client.py` line 274): the
`max_retries` argument is omitted, so its default `3` applies. -/
def download_single_image_default (att : Nat → Option String)
    (image_url timestamp short_id : String) (idx : Nat) : DownloadOutcome :=
  download_single_image att image_url timestamp short_id idx 3

/-- The completion value of `asyncio.gather` in `_save_url_images`
(`src/src/client.py` lines 276-282) over the items enumerated from `idx`
(1-based, from `enumerate(data, 1)`): if every per-item retry loop succeeds
the batch yields the filenames in input order, and if any item exhausts its
retries that exception propagates out of `gather`, so the whole call yields
nothing (no partial list). -/
def collectDownloads (att : Nat → Nat → Option String) (timestamp short_id : String) :
    List String → Nat → Option (List String)
  | [], _ => some []
  | url :: rest, idx =>
      match (download_single_image_default (att idx) url timestamp short_id idx).result with
      | none => none
      | some fn =>
          match collectDownloads att timestamp short_id rest (idx + 1) with
          | none => none
          | some fns => some (fn :: fns)

/-- The download concurrency default of `_save_url_images`
(`src/src/client.py` line 261): `max_concurrent: int = 2`. -/
def save_url_images_default_concurrency : Nat := 2

/-- The semaphore size `_save_url_images` actually runs with when invoked
from `generate_images` (`src/src/client.py` lines 92, 103 and 144): every
call site omits the `max_concurrent` argument, so the default applies
whatever the task's settings snapshot holds. -/
def generate_images_download_cap (_settings : Settings) : Nat :=
  save_url_images_default_concurrency

/-- State of one batch inside `_save_url_images`: download tasks not yet
holding a semaphore permit, downloads currently in flight (inside
`async with semaphore`), finished downloads, and free permits of the one
semaphore shared by the whole batch (`asyncio.Semaphore(max_concurrent)`,
line 269). -/
structure BatchState where
  waiting : Nat
  inFlight : Nat
  done : Nat
  permits : Nat
deriving DecidableEq, Repr

/-- Initial state of a batch of `n` downloads under semaphore capacity
`cap`. -/
def initBatch (n cap : Nat) : BatchState :=
  ⟨n, 0, 0, cap⟩

/-- Interleaving steps of `download_with_semaphore` (`src/src/client.py`
lines 271-274): a waiting task acquires a free permit and its download goes
in flight; an in-flight download finishes and releases its permit. -/
inductive BatchStep : BatchState → BatchState → Prop
  | acquire (s : BatchState) (hw : 0 < s.waiting) (hp : 0 < s.permits) :
      BatchStep s ⟨s.waiting - 1, s.inFlight + 1, s.done, s.permits - 1⟩
  | release (s : BatchState) (hf : 0 < s.inFlight) :
      BatchStep s ⟨s.waiting, s.inFlight - 1, s.done + 1, s.permits + 1⟩

/-- Reachability under batch steps. -/
inductive BatchReach : BatchState → BatchState → Prop
  | refl (s : BatchState) : BatchReach s s
  | step {s t u : BatchState} : BatchReach s t → BatchStep t u → BatchReach s u

/-- The send loop of `TaskQueue._broadcast_task_update` (`src/src/tasks.py`
lines 308-316): iterate over the observers, `try` the send — modelled by
`send c` returning `Except.ok` or `Except.error` — record the delivered
message for a successful observer, and collect a failing observer into the
`disconnected` set. -/
def broadcastLoop {α : Type} (send : α → Except String Unit) (message : String) :
    List α → List (α × String) → List α → List (α × String) × List α
  | [], sent, disconnected => (sent, disconnected)
  | c :: rest, sent, disconnected =>
      match send c with
      | Except.ok _ => broadcastLoop send message rest (sent ++ [(c, message)]) disconnected
      | Except.error _ => broadcastLoop send message rest sent (disconnected ++ [c])

/-- `TaskQueue._broadcast_task_update` (`src/src/tasks.py` lines 298-320):
send the one serialized snapshot message to every observer, then discard the
failed observers from `websocket_clients`.  Each per-send exception is
caught inside the loop, so the broadcast itself completes normally
(`Except.ok`); `_handle_broadcast_done` (lines 291-296) also swallows any
exception before it could reach the worker. -/
def broadcast_task_update {α : Type} [DecidableEq α] (send : α → Except String Unit)
    (clients : List α) (message : String) :
    Except String (List (α × String) × List α) :=
  let out := broadcastLoop send message clients [] []
  Except.ok (out.1, clients.filter (fun c => decide (c ∉ out.2)))

/-- Concrete config list for witnesses: one fully-populated config. -/
def c7Configs : List ApiConfig :=
  [{ name := some "default", base_url := some "http://api.example.com/",
     api_key := some "sk-test", model := some "grok-imagine-1.0", proxy := none }]

/-- Concrete creation request carrying a reference image with `n = 2`. -/
def c7Request : TaskCreate :=
  { prompt := "a cat", n := 2, config_name := some "default",
    image_data := some "data:image/png;base64,AAAA" }

/-- Concrete config list for the requeue counterexample: the single config is
named `other`, not `gone`. -/
def c5Configs : List ApiConfig :=
  [{ name := some "other", base_url := some "http://x.example.com",
     api_key := some "sk-live", model := none, proxy := none }]

/-- Concrete persisted queued record whose stored label `gone` names no
config. -/
def c5Record : TaskRecord :=
  { task_id := "t9", status := TaskStatus.queued, prompt := "a dog", n := 1,
    created_at := some "2024-01-02T00:00:00", started_at := none, finished_at := none,
    results := none, error := none, config_name := some "gone" }

/-- Concrete config list whose only entry lacks an `api_key`. -/
def c5BadConfigs : List ApiConfig :=
  [{ name := some "default", base_url := some "http://x.example.com",
     api_key := none, model := none, proxy := none }]

/-- Concrete persisted queued record pointing at `c5BadConfigs`. -/
def c5BadRecord : TaskRecord :=
  { task_id := "t10", status := TaskStatus.queued, prompt := "a fish", n := 1,
    created_at := some "2024-01-03T00:00:00", started_at := none, finished_at := none,
    results := none, error := none, config_name := some "default" }

/-- Concrete settings snapshot whose clamped `max_concurrent` is 1. -/
def c1Settings : Settings :=
  { base_url := "http://api.example.com", api_key := "sk-test",
    model := "grok-imagine-1.0", proxy := none,
    max_concurrent := get_max_concurrent 1 }

/-- Concrete attempt oracle: the first two attempts raise, the third returns
a 200 response with a `png` content-type. -/
def c3Attempts : Nat → Option String :=
  fun a => if a < 3 then none else some "image/png"

/-- Concrete resident in-memory task for the requeue witnesses. -/
def c6Resident : MemTask :=
  { task_id := "t1", status := TaskStatus.queued, prompt := "a cat", n := 1,
    settings := c1Settings, created_at := some "2024-01-01T00:00:00",
    config_name := some "default", image_data := none }

/-- Concrete persisted queued record with the resident id `t1`. -/
def c6ResidentRecord : TaskRecord :=
  { task_id := "t1", status := TaskStatus.queued, prompt := "a cat", n := 1,
    created_at := some "2024-01-01T00:00:00", started_at := none, finished_at := none,
    results := none, error := none, config_name := some "default" }

/-- Concrete persisted queued record with a fresh id `t2`. -/
def c6FreshRecord : TaskRecord :=
  { task_id := "t2", status := TaskStatus.queued, prompt := "a dog", n := 2,
    created_at := some "2024-01-02T00:00:00", started_at := none, finished_at := none,
    results := none, error := none, config_name := some "default" }

/-- Bool success of one observer send. -/
def sendOk {α : Type} (send : α → Except String Unit) (c : α) : Bool :=
  match send c with
  | Except.ok _ => true
  | Except.error _ => false

/-- Concrete one-row table used to witness the recovery theorems. -/
def resetWitnessDb : List TaskRecord :=
  [{ task_id := "t1", status := TaskStatus.running, prompt := "a cat", n := 1,
     created_at := some "2024-01-01T00:00:00", started_at := some "2024-01-01T00:00:01",
     finished_at := some "2024-01-01T00:00:02", results := none, error := some "boom",
     config_name := some "default" }]

/-- **C4**: the recovery step executed at startup (`startup_event` in
`src/app.py` calls `reset_running_tasks_to_queued()` with no reason, i.e.
`reason = None`) demotes every persisted task whose status is `running`
back to `queued` and clears `started_at`, `finished_at` and `error`. -/
theorem startup_reset_demotes_running (db : List TaskRecord) (i : Nat) (r : TaskRecord)
    (h : db[i]? = some r) (hr : r.status = TaskStatus.running) :
    (reset_running_tasks_to_queued none db)[i]? =
      some { r with status := TaskStatus.queued, started_at := none,
                    finished_at := none, error := none } := by
  simp [reset_running_tasks_to_queued, List.getElem?_map, h, hr]

/-- Witness for `startup_reset_demotes_running` at a concrete one-row table. -/
theorem startup_reset_demotes_running_witness :
    (reset_running_tasks_to_queued none resetWitnessDb)[0]? =
      some { task_id := "t1", status := TaskStatus.queued, prompt := "a cat", n := 1,
             created_at := some "2024-01-01T00:00:00", started_at := none,
             finished_at := none, results := none, error := none,
             config_name := some "default" : TaskRecord } :=
  startup_reset_demotes_running resetWitnessDb 0 _ rfl rfl

/-- **C2 counterexample**: the startup recovery (`reset_running_tasks_to_queued`,
called from `startup_event`) moves a persisted task from `running` back to
`queued`: an edge outside the claim's set `queued → running → {succeeded,
failed}`, and a regression in the claim's progress order.  Shown on the
concrete one-row table `resetWitnessDb` whose task is `running`. -/
theorem task_status_regresses_on_recovery :
    (resetWitnessDb.map TaskRecord.status = [TaskStatus.running]) ∧
    ((reset_running_tasks_to_queued none resetWitnessDb).map TaskRecord.status =
      [TaskStatus.queued]) ∧
    specLegalEdge TaskStatus.running TaskStatus.queued = false ∧
    statusRank TaskStatus.queued < statusRank TaskStatus.running :=
  ⟨rfl, rfl, rfl, by decide⟩

/-- **C2 amended**: every status edge the system performs on a task is either
one of the claim's edges `queued → running → {succeeded, failed}` or the
startup-recovery demotion `running → queued`; a terminal status is only ever
entered from `running`; and the worker's own edges never regress. -/
theorem task_status_edges (s t : TaskStatus) (h : SysStep s t) :
    (specLegalEdge s t = true ∨ (s = TaskStatus.running ∧ t = TaskStatus.queued)) ∧
    ((t = TaskStatus.succeeded ∨ t = TaskStatus.failed) → s = TaskStatus.running) ∧
    (WorkerStep s t → statusRank s < statusRank t) := by
  cases h with
  | worker hw => cases hw <;> exact ⟨Or.inl rfl, by decide, fun _ => by decide⟩
  | recover => exact ⟨Or.inr ⟨rfl, rfl⟩, by decide, fun hw => nomatch hw⟩

/-- Witness for `task_status_edges` at the concrete worker edge
`queued → running`. -/
theorem task_status_edges_witness :
    (specLegalEdge TaskStatus.queued TaskStatus.running = true ∨
      (TaskStatus.queued = TaskStatus.running ∧ TaskStatus.running = TaskStatus.queued)) ∧
    ((TaskStatus.running = TaskStatus.succeeded ∨ TaskStatus.running = TaskStatus.failed) →
      TaskStatus.queued = TaskStatus.running) ∧
    (WorkerStep TaskStatus.queued TaskStatus.running →
      statusRank TaskStatus.queued < statusRank TaskStatus.running) :=
  task_status_edges TaskStatus.queued TaskStatus.running (SysStep.worker WorkerStep.dequeue)

/-- **C10**: `update_task_status` always overwrites the `status` column of the
matching row, and leaves `started_at`, `finished_at`, `results`, `error`
unchanged whenever the corresponding argument is absent (`none`) or empty
(Python-falsy); in particular the empty string is falsy, so an empty-string
`error` or empty serialized `results` does not overwrite the stored value.
All other columns of the row are untouched. -/
theorem update_task_status_frame (task_id : String) (status : TaskStatus)
    (sa fa res err : Option String) (db : List TaskRecord) (i : Nat) (r : TaskRecord)
    (h : db[i]? = some r) (hid : r.task_id = task_id) :
    ∃ r', (update_task_status task_id status sa fa res err db)[i]? = some r' ∧
      r'.status = status ∧
      (pyTruthy sa = false → r'.started_at = r.started_at) ∧
      (pyTruthy fa = false → r'.finished_at = r.finished_at) ∧
      (pyTruthy res = false → r'.results = r.results) ∧
      (pyTruthy err = false → r'.error = r.error) ∧
      r'.task_id = r.task_id ∧ r'.prompt = r.prompt ∧ r'.n = r.n ∧
      r'.created_at = r.created_at ∧ r'.config_name = r.config_name ∧
      pyTruthy (some "") = false := by
  refine ⟨updateRecord status sa fa res err r, ?_, ?_, ?_, ?_, ?_, ?_, ?_, ?_, ?_, ?_, ?_, ?_⟩
  · simp [update_task_status, List.getElem?_map, h, hid]
  all_goals simp [updateRecord, pyTruthy]
  all_goals intro hh
  all_goals simp [hh]

/-- Witness for `update_task_status_frame`: a terminal update carrying an
empty-string error and no results against the concrete one-row table. -/
theorem update_task_status_frame_witness :
    ∃ r', (update_task_status "t1" TaskStatus.failed none (some "fin") none (some "")
            resetWitnessDb)[0]? = some r' ∧
      r'.status = TaskStatus.failed ∧
      (pyTruthy (none : Option String) = false → r'.started_at = some "2024-01-01T00:00:01") ∧
      (pyTruthy (some "fin") = false → r'.finished_at = some "2024-01-01T00:00:02") ∧
      (pyTruthy (none : Option String) = false → r'.results = none) ∧
      (pyTruthy (some "") = false → r'.error = some "boom") ∧
      r'.task_id = "t1" ∧ r'.prompt = "a cat" ∧ r'.n = 1 ∧
      r'.created_at = some "2024-01-01T00:00:00" ∧ r'.config_name = some "default" ∧
      pyTruthy (some "") = false :=
  update_task_status_frame "t1" TaskStatus.failed none (some "fin") none (some "")
    resetWitnessDb 0 _ rfl rfl

/-- For a non-empty config list, `select_config` always resolves a config. -/
theorem select_config_of_ne_nil (cn : Option String) (configs : List ApiConfig)
    (hc : configs ≠ []) : ∃ c, select_config cn configs = some c := by
  cases configs with
  | nil => exact absurd rfl hc
  | cons a l =>
      cases h : pyTruthy cn with
      | false => exact ⟨a, by simp [select_config, h]⟩
      | true =>
          cases hf : List.find? (fun c => c.name == cn) (a :: l) with
          | none => exact ⟨a, by simp [select_config, h, hf]⟩
          | some c => exact ⟨c, by simp [select_config, h, hf]⟩

/-- **C7**: a creation request that supplies a (truthy) reference image
together with `n ≠ 1` is rejected with the validation error before any state
change: the returned table and queue state are exactly the inputs, so no
task row is written and nothing is enqueued. -/
theorem create_task_ref_image_rejected (configs : List ApiConfig) (maxConc : Nat)
    (req : TaskCreate) (newId created_at : String) (db : List TaskRecord)
    (st : QueueState) (himg : pyTruthy req.image_data = true) (hn : req.n ≠ 1)
    (hc : configs ≠ []) :
    app_create_task configs maxConc req newId created_at db st =
      (Except.error CreateTaskError.refImageCountNotOne, db, st) := by
  obtain ⟨c, hcfg⟩ := select_config_of_ne_nil req.config_name configs hc
  unfold app_create_task
  rw [hcfg]
  simp [himg, hn]

/-- Witness for `create_task_ref_image_rejected`: a concrete reference-image
request with `n = 2` against a concrete config list, empty table and empty
queue. -/
theorem create_task_ref_image_rejected_witness :
    app_create_task c7Configs 2 c7Request "id-1" "2024-01-01T00:00:00" [] ⟨[], []⟩ =
      (Except.error CreateTaskError.refImageCountNotOne, [], (⟨[], []⟩ : QueueState)) :=
  create_task_ref_image_rejected c7Configs 2 c7Request "id-1" "2024-01-01T00:00:00"
    [] ⟨[], []⟩ rfl (by decide) (by decide)

/-- **C8 counterexample**: for a response whose content-type indicates `png`
while the URL suffix indicates `jpg`, the code picks `jpg` — the URL suffix
wins over the content-type, because the first branch tests
`image_url.endswith(".jpg")` alongside the jpeg content-type tests. -/
theorem ext_content_type_does_not_win :
    strContains "image/png" "png" = true ∧
    strContains "image/png" "jpeg" = false ∧
    strContains "image/png" "jpg" = false ∧
    strEndsWith "http://h/img.jpg" ".jpg" = true ∧
    extFor "image/png" "http://h/img.jpg" = "jpg" ∧
    "jpg" ≠ "png" := by
  refine ⟨by decide, by decide, by decide, by decide, by decide, by decide⟩

/-- **C8 amended**: the extension is chosen by the first matching rule of
`_download_single_image`: `jpg` when the content-type mentions `jpeg` or
`jpg` **or the URL ends in `.jpg`**; otherwise `png` when the content-type
mentions `png` or the URL ends in `.png`; otherwise the default `jpg`.
Consequently a `jpeg` content-type beats a `.png` URL suffix, but a `png`
content-type is beaten by a `.jpg` URL suffix. -/
theorem ext_precedence (content_type image_url : String) :
    (strContains content_type "jpeg" = true ∨ strContains content_type "jpg" = true →
      extFor content_type image_url = "jpg") ∧
    (strEndsWith image_url ".jpg" = true → extFor content_type image_url = "jpg") ∧
    (strContains content_type "jpeg" = false → strContains content_type "jpg" = false →
      strEndsWith image_url ".jpg" = false → strContains content_type "png" = true →
      extFor content_type image_url = "png") ∧
    (strContains content_type "jpeg" = false → strContains content_type "jpg" = false →
      strContains content_type "png" = false → strEndsWith image_url ".jpg" = false →
      strEndsWith image_url ".png" = false → extFor content_type image_url = "jpg") := by
  refine ⟨?_, ?_, ?_, ?_⟩
  · rintro (h | h) <;> simp [extFor, h]
  · intro h; simp [extFor, h]
  · intro h1 h2 h3 h4; simp [extFor, h1, h2, h3, h4]
  · intro h1 h2 h3 h4 h5; simp [extFor, h1, h2, h3, h4, h5]

/-- Witness for `ext_precedence`: a `jpeg` content-type with a `.png` URL
suffix — the content-type wins in that direction. -/
theorem ext_precedence_witness :
    (strContains "image/jpeg" "jpeg" = true ∨ strContains "image/jpeg" "jpg" = true →
      extFor "image/jpeg" "http://h/a.png" = "jpg") ∧
    (strEndsWith "http://h/a.png" ".jpg" = true →
      extFor "image/jpeg" "http://h/a.png" = "jpg") ∧
    (strContains "image/jpeg" "jpeg" = false → strContains "image/jpeg" "jpg" = false →
      strEndsWith "http://h/a.png" ".jpg" = false →
      strContains "image/jpeg" "png" = true →
      extFor "image/jpeg" "http://h/a.png" = "png") ∧
    (strContains "image/jpeg" "jpeg" = false → strContains "image/jpeg" "jpg" = false →
      strContains "image/jpeg" "png" = false →
      strEndsWith "http://h/a.png" ".jpg" = false →
      strEndsWith "http://h/a.png" ".png" = false →
      extFor "image/jpeg" "http://h/a.png" = "jpg") :=
  ext_precedence "image/jpeg" "http://h/a.png"

/-- Closed form of the broadcast send loop: the successful observers receive
the message in order, the failing ones are collected into `disconnected`. -/
theorem broadcastLoop_spec {α : Type} (send : α → Except String Unit) (message : String)
    (l : List α) (sent : List (α × String)) (disc : List α) :
    broadcastLoop send message l sent disc =
      (sent ++ (l.filter (sendOk send)).map (fun c => (c, message)),
        disc ++ l.filter (fun c => !(sendOk send c))) := by
  induction l generalizing sent disc with
  | nil => simp [broadcastLoop]
  | cons c rest ih =>
      cases hs : send c with
      | ok u =>
          simp [broadcastLoop, hs, ih, sendOk, List.filter_cons]
      | error e =>
          simp [broadcastLoop, hs, ih, sendOk, List.filter_cons]

/-- **C9**: one broadcast event attempts every observer with the same
snapshot message; the set of observers it keeps is exactly the observers
whose send succeeded (so a send failure removes exactly the failing
observer), every successful observer was sent the message, and the
broadcast returns normally (`Except.ok`) — no send exception propagates to
the worker that triggered it. -/
theorem broadcast_failure_isolated {α : Type} [DecidableEq α]
    (send : α → Except String Unit) (clients : List α) (message : String) :
    broadcast_task_update send clients message =
      Except.ok ((clients.filter (sendOk send)).map (fun c => (c, message)),
        clients.filter (sendOk send)) := by
  unfold broadcast_task_update
  rw [broadcastLoop_spec]
  simp only [List.nil_append, Except.ok.injEq, Prod.mk.injEq, true_and]
  apply List.filter_congr
  intro c hc
  simp only [decide_eq_true_eq, List.mem_filter, Bool.not_eq_true']
  cases h : sendOk send c with
  | true => simp [h, hc]
  | false => simp [h, hc]

/-- Witness for `broadcast_failure_isolated`: three concrete observers of
which the middle one fails — it alone is removed, the others receive the
message, and the broadcast returns normally. -/
theorem broadcast_failure_isolated_witness :
    broadcast_task_update
        (fun c : Nat => if c = 1 then Except.error "boom" else Except.ok ())
        [0, 1, 2] "msg" =
      Except.ok ([(0, "msg"), (2, "msg")], [0, 2]) := by
  have h := broadcast_failure_isolated
    (fun c : Nat => if c = 1 then Except.error "boom" else Except.ok ()) [0, 1, 2] "msg"
  rw [h]
  rfl

/-- Case analysis of the default-parameter retry loop: attempts 1, 2, 3 are
tried in order, each failure before the last sleeps once, the last failure
re-raises. -/
theorem download_default_eq (att : Nat → Option String)
    (url timestamp short_id : String) (idx : Nat) :
    download_single_image_default att url timestamp short_id idx =
      match att 1 with
      | some ct => ⟨some (timestamp ++ "_" ++ short_id ++ "_" ++ toString idx ++ "."
          ++ extFor ct url), 1, 0⟩
      | none =>
          match att 2 with
          | some ct => ⟨some (timestamp ++ "_" ++ short_id ++ "_" ++ toString idx ++ "."
              ++ extFor ct url), 2, 1⟩
          | none =>
              match att 3 with
              | some ct => ⟨some (timestamp ++ "_" ++ short_id ++ "_" ++ toString idx ++ "."
                  ++ extFor ct url), 3, 2⟩
              | none => ⟨none, 3, 2⟩ := by
  unfold download_single_image_default download_single_image
  have hr : List.range' 1 3 = [1, 2, 3] := rfl
  rw [hr]
  cases h1 : att 1 <;> cases h2 : att 2 <;> cases h3 : att 3 <;>
    simp [runAttempts, h1, h2, h3]

/-- If every item of the batch succeeds within its retries, the gather
completes with a value. -/
theorem collectDownloads_isSome (attB : Nat → Nat → Option String)
    (timestamp short_id : String) (urls : List String) (k : Nat)
    (h : ∀ j u, urls[j]? = some u →
      ((download_single_image_default (attB (k + j)) u timestamp short_id
        (k + j)).result).isSome = true) :
    (collectDownloads attB timestamp short_id urls k).isSome = true := by
  induction urls generalizing k with
  | nil => simp [collectDownloads]
  | cons url rest ih =>
      have h0 := h 0 url (by simp)
      simp only [Nat.add_zero] at h0
      unfold collectDownloads
      cases hr : (download_single_image_default (attB k) url timestamp short_id k).result with
      | none => rw [hr] at h0; simp at h0
      | some fn =>
          have hrec : (collectDownloads attB timestamp short_id rest (k + 1)).isSome = true := by
            apply ih
            intro j u hj
            have hju := h (j + 1) u (by simpa using hj)
            have heq : k + (j + 1) = k + 1 + j := by omega
            rw [heq] at hju
            exact hju
          obtain ⟨fns, hfns⟩ := Option.isSome_iff_exists.mp hrec
          simp [hfns]

/-- If one item of the batch exhausts its retries, the gather propagates the
exception and the whole call yields nothing. -/
theorem collectDownloads_none (attB : Nat → Nat → Option String)
    (timestamp short_id : String) (urls : List String) (k j : Nat) (u : String)
    (hj : urls[j]? = some u)
    (hf : (download_single_image_default (attB (k + j)) u timestamp short_id
      (k + j)).result = none) :
    collectDownloads attB timestamp short_id urls k = none := by
  induction urls generalizing k j with
  | nil => simp at hj
  | cons url rest ih =>
      cases j with
      | zero =>
          simp only [List.getElem?_cons_zero, Option.some.injEq] at hj
          subst hj
          simp only [Nat.add_zero] at hf
          unfold collectDownloads
          rw [hf]
      | succ j' =>
          unfold collectDownloads
          cases hr : (download_single_image_default (attB k) url timestamp
              short_id k).result with
          | none => rfl
          | some fn =>
              have hrec : collectDownloads attB timestamp short_id rest (k + 1) = none := by
                apply ih (k + 1) j' (by simpa using hj)
                have heq : k + (j' + 1) = k + 1 + j' := by omega
                rw [heq] at hf
                exact hf
              rw [hrec]

/-- **C3**: a URL-based single-item fetch makes at most 3 attempts, sleeping
exactly one unit between consecutive attempts (`slept + 1 = attemptsMade`);
two failures followed by a success on the third attempt yield the saved
filename after 3 attempts and 2 delays; three failures re-raise after 3
attempts and 2 delays; and in the batch, every item succeeding yields a
result while any single item exhausting its retries makes the whole gather
yield nothing (no partial artifact list). -/
theorem download_retry_contract (att : Nat → Option String)
    (attB : Nat → Nat → Option String) (urls : List String)
    (url timestamp short_id : String) (idx : Nat) :
    (download_single_image_default att url timestamp short_id idx).attemptsMade ≤ 3 ∧
    (download_single_image_default att url timestamp short_id idx).slept + 1 =
      (download_single_image_default att url timestamp short_id idx).attemptsMade ∧
    (att 1 = none → att 2 = none → att 3 = none →
      download_single_image_default att url timestamp short_id idx = ⟨none, 3, 2⟩) ∧
    (∀ ct, att 1 = none → att 2 = none → att 3 = some ct →
      download_single_image_default att url timestamp short_id idx =
        ⟨some (timestamp ++ "_" ++ short_id ++ "_" ++ toString idx ++ "."
            ++ extFor ct url), 3, 2⟩) ∧
    ((∀ j u, urls[j]? = some u →
        ((download_single_image_default (attB (1 + j)) u timestamp short_id
          (1 + j)).result).isSome = true) →
      (collectDownloads attB timestamp short_id urls 1).isSome = true) ∧
    (∀ j u, urls[j]? = some u →
      (download_single_image_default (attB (1 + j)) u timestamp short_id
        (1 + j)).result = none →
      collectDownloads attB timestamp short_id urls 1 = none) := by
  have he := download_default_eq att url timestamp short_id idx
  refine ⟨?_, ?_, ?_, ?_, ?_, ?_⟩
  · rw [he]; cases h1 : att 1 <;> cases h2 : att 2 <;> cases h3 : att 3 <;> simp
  · rw [he]; cases h1 : att 1 <;> cases h2 : att 2 <;> cases h3 : att 3 <;> simp
  · intro h1 h2 h3; rw [he, h1, h2, h3]
  · intro ct h1 h2 h3; rw [he, h1, h2, h3]
  · exact collectDownloads_isSome attB timestamp short_id urls 1
  · intro j u hj hf; exact collectDownloads_none attB timestamp short_id urls 1 j u hj hf

/-- Witness for `download_retry_contract`: the concrete oracle whose first
two attempts raise and whose third returns a `png` response yields the saved
filename after 3 attempts and 2 sleeps. -/
theorem download_retry_contract_witness :
    download_single_image_default c3Attempts "http://h/a.png" "20240101_000000" "abcd1234" 1 =
      ⟨some ("20240101_000000" ++ "_" ++ "abcd1234" ++ "_" ++ toString 1 ++ "."
          ++ extFor "image/png" "http://h/a.png"), 3, 2⟩ :=
  (download_retry_contract c3Attempts (fun _ => c3Attempts) []
      "http://h/a.png" "20240101_000000" "abcd1234" 1).2.2.2.1 "image/png" rfl rfl rfl

/-- Batch steps preserve the sum of in-flight downloads and free permits:
the one shared semaphore conserves its permits. -/
theorem batchReach_inFlight_add_permits (s t : BatchState) (h : BatchReach s t) :
    t.inFlight + t.permits = s.inFlight + s.permits := by
  induction h with
  | refl => rfl
  | step hr hs ih =>
      cases hs with
      | acquire hw hp =>
          simp only at ih ⊢
          omega
      | release hf =>
          simp only at ih ⊢
          omega

/-- **C1 counterexample**: with a settings snapshot whose process-wide bound
`max_concurrent` is 1 (a value the clamp `get_max_concurrent` produces), a
batch of two URL downloads still reaches a state with two downloads in
flight: every call of `_save_url_images` from `generate_images` builds its
semaphore from the fixed default 2, not from the snapshot's bound. -/
theorem download_concurrency_exceeds_settings_bound :
    c1Settings.max_concurrent = 1 ∧
    generate_images_download_cap c1Settings ≠ c1Settings.max_concurrent ∧
    BatchReach (initBatch 2 (generate_images_download_cap c1Settings))
      ⟨0, 2, 0, 0⟩ ∧
    c1Settings.max_concurrent < (⟨0, 2, 0, 0⟩ : BatchState).inFlight := by
  refine ⟨by decide, by decide, ?_, by decide⟩
  exact BatchReach.step
    (BatchReach.step (BatchReach.refl _)
      (BatchStep.acquire ⟨2, 0, 0, 2⟩ (by decide) (by decide)))
    (BatchStep.acquire ⟨1, 1, 0, 1⟩ (by decide) (by decide))

/-- **C1 amended**: all fetches of one batch share one semaphore, and at most
`cap` downloads are in flight in any reachable state of the batch, where
`cap` is the semaphore size the code actually uses — the fixed default 2 of
`_save_url_images`, independent of the settings snapshot carried by the
task. -/
theorem download_batch_concurrency_bound (settings : Settings) (n : Nat)
    (s : BatchState)
    (h : BatchReach (initBatch n (generate_images_download_cap settings)) s) :
    s.inFlight ≤ generate_images_download_cap settings ∧
    generate_images_download_cap settings = 2 := by
  constructor
  · have hsum := batchReach_inFlight_add_permits _ _ h
    simp only [initBatch] at hsum
    omega
  · rfl

/-- Witness for `download_batch_concurrency_bound` at the initial state of a
concrete batch of 3 downloads. -/
theorem download_batch_concurrency_bound_witness :
    (initBatch 3 (generate_images_download_cap c1Settings)).inFlight ≤
      generate_images_download_cap c1Settings ∧
    generate_images_download_cap c1Settings = 2 :=
  download_batch_concurrency_bound c1Settings 3 _
    (BatchReach.refl (initBatch 3 (generate_images_download_cap c1Settings)))

/-- A record whose configuration cannot be resolved (in the code's sense) is
always skipped by the requeue loop body: the state is unchanged. -/
theorem requeueStep_skip (configs : List ApiConfig) (maxConc : Nat)
    (st : QueueState) (td : TaskRecord)
    (h : cannotResolve configs maxConc td = true) :
    requeueStep configs maxConc st td = st := by
  unfold cannotResolve at h
  unfold requeueStep
  split
  · rfl
  · split
    · rfl
    · rename_i config hc
      rw [hc] at h
      dsimp only at h ⊢
      split
      · rfl
      · rename_i hcond
        exact absurd h (by simpa using hcond)

/-- The requeue loop body either leaves the state unchanged or appends one
fresh id (not yet resident) to both the map and the queue. -/
theorem requeueStep_eq_or_append (configs : List ApiConfig) (maxConc : Nat)
    (st : QueueState) (td : TaskRecord) :
    requeueStep configs maxConc st td = st ∨
    (st.hasTask td.task_id = false ∧
      ∃ mt : MemTask, requeueStep configs maxConc st td =
        ⟨st.tasks ++ [(td.task_id, mt)], st.queue ++ [td.task_id]⟩) := by
  unfold requeueStep
  split
  · exact Or.inl rfl
  · rename_i h1
    have hht : st.hasTask td.task_id = false := by
      simp only [Bool.or_eq_true, decide_eq_true_eq, not_or] at h1
      simpa using h1.2
    split
    · exact Or.inl rfl
    · rename_i config hc
      dsimp only
      split
      · exact Or.inl rfl
      · exact Or.inr ⟨hht, _, rfl⟩

/-- Folding the requeue loop never introduces an id all of whose records are
unresolvable, provided the id is absent from the initial map and queue. -/
theorem foldl_requeue_not_added (configs : List ApiConfig) (maxConc : Nat)
    (l : List TaskRecord) (st : QueueState) (id : String)
    (hskip : ∀ r ∈ l, r.task_id = id → cannotResolve configs maxConc r = true)
    (hm : st.hasTask id = false) (hq : id ∉ st.queue) :
    (l.foldl (requeueStep configs maxConc) st).hasTask id = false ∧
    id ∉ (l.foldl (requeueStep configs maxConc) st).queue := by
  induction l generalizing st with
  | nil => exact ⟨hm, hq⟩
  | cons td rest ih =>
      have hstep : (requeueStep configs maxConc st td).hasTask id = false ∧
          id ∉ (requeueStep configs maxConc st td).queue := by
        by_cases hid : td.task_id = id
        · rw [requeueStep_skip configs maxConc st td
            (hskip td (List.mem_cons_self td rest) hid)]
          exact ⟨hm, hq⟩
        · rcases requeueStep_eq_or_append configs maxConc st td with he | ⟨_, mt, he⟩
          · rw [he]; exact ⟨hm, hq⟩
          · rw [he]
            constructor
            · simp only [QueueState.hasTask, List.any_append] at hm ⊢
              simp [hm, hid]
            · simp only [List.mem_append, List.mem_singleton]
              rintro (hmem | rfl)
              · exact hq hmem
              · exact hid rfl
      simp only [List.foldl_cons]
      exact ih (requeueStep configs maxConc st td)
        (fun r hr hrid => hskip r (List.mem_cons_of_mem td hr) hrid)
        hstep.1 hstep.2

/-- **C5 counterexample**: a persisted queued task whose stored label `gone`
names no config is **not** skipped: `select_config` silently falls back to
the first config, so the task is loaded into memory and enqueued. -/
theorem requeue_missing_label_not_skipped :
    (c5Configs.find? (fun c => c.name == c5Record.config_name) = none) ∧
    ((requeue_pending_tasks c5Configs 2 [c5Record] ⟨[], []⟩).1.queue = ["t9"]) ∧
    ((requeue_pending_tasks c5Configs 2 [c5Record] ⟨[], []⟩).1.hasTask "t9" = true) := by
  refine ⟨by decide, by decide, by decide⟩

/-- **C5 amended**: during startup requeue, a persisted queued task is
skipped — not loaded into memory, not enqueued, the task table untouched so
its row stays `queued` and is never marked `failed` — exactly when the
configuration genuinely cannot be resolved: `select_config` resolves nothing
(the config list is empty) or the config it does resolve (the named one,
else the first as fallback) yields settings lacking `base_url` or `api_key`.
A stored label naming a missing config does not by itself cause a skip. -/
theorem requeue_unresolvable_skipped (configs : List ApiConfig) (maxConc : Nat)
    (db : List TaskRecord) (st : QueueState) (td : TaskRecord)
    (hin : td ∈ db) (hqd : td.status = TaskStatus.queued)
    (hcr : ∀ r ∈ db, r.task_id = td.task_id → cannotResolve configs maxConc r = true)
    (hm : st.hasTask td.task_id = false) (hq : td.task_id ∉ st.queue) :
    (requeue_pending_tasks configs maxConc db st).1.hasTask td.task_id = false ∧
    td.task_id ∉ (requeue_pending_tasks configs maxConc db st).1.queue ∧
    (requeue_pending_tasks configs maxConc db st).2 = db ∧
    td ∈ (requeue_pending_tasks configs maxConc db st).2 ∧
    td.status ≠ TaskStatus.failed := by
  have h := foldl_requeue_not_added configs maxConc
    (db.filter (fun r => r.status == TaskStatus.queued)) st td.task_id
    (fun r hr hrid => hcr r (List.mem_of_mem_filter hr) hrid) hm hq
  exact ⟨h.1, h.2, rfl, hin, by rw [hqd]; intro hcontra; cases hcontra⟩

/-- Witness for `requeue_unresolvable_skipped`: a concrete queued record whose
named config exists but lacks an `api_key`. -/
theorem requeue_unresolvable_skipped_witness :
    (requeue_pending_tasks c5BadConfigs 2 [c5BadRecord] ⟨[], []⟩).1.hasTask "t10" = false ∧
    "t10" ∉ (requeue_pending_tasks c5BadConfigs 2 [c5BadRecord] ⟨[], []⟩).1.queue ∧
    (requeue_pending_tasks c5BadConfigs 2 [c5BadRecord] ⟨[], []⟩).2 = [c5BadRecord] ∧
    c5BadRecord ∈ (requeue_pending_tasks c5BadConfigs 2 [c5BadRecord] ⟨[], []⟩).2 ∧
    c5BadRecord.status ≠ TaskStatus.failed :=
  requeue_unresolvable_skipped c5BadConfigs 2 [c5BadRecord] ⟨[], []⟩ c5BadRecord
    (by decide) (by decide) (by decide) (by decide) (by decide)

/-- Folding the requeue loop appends only fresh ids, keeps the queue and the
map keys duplicate-free, and keeps every queued id resident in the map. -/
theorem foldl_requeue_spec (configs : List ApiConfig) (maxConc : Nat)
    (l : List TaskRecord) (st : QueueState)
    (hq : st.queue.Nodup) (hk : (st.tasks.map Prod.fst).Nodup)
    (hsub : ∀ id, id ∈ st.queue → st.hasTask id = true) :
    ∃ newIds : List String,
      (l.foldl (requeueStep configs maxConc) st).queue = st.queue ++ newIds ∧
      (∀ id ∈ newIds, st.hasTask id = false) ∧
      (l.foldl (requeueStep configs maxConc) st).queue.Nodup ∧
      ((l.foldl (requeueStep configs maxConc) st).tasks.map Prod.fst).Nodup ∧
      (∀ id, id ∈ (l.foldl (requeueStep configs maxConc) st).queue →
        (l.foldl (requeueStep configs maxConc) st).hasTask id = true) := by
  induction l generalizing st with
  | nil => exact ⟨[], by simp, by simp, hq, hk, hsub⟩
  | cons td rest ih =>
      simp only [List.foldl_cons]
      rcases requeueStep_eq_or_append configs maxConc st td with he | ⟨habs, mt, he⟩
      · rw [he]; exact ih st hq hk hsub
      · rw [he]
        have hqmem : td.task_id ∉ st.queue := by
          intro hmem
          have hcontra := hsub _ hmem
          rw [habs] at hcontra
          cases hcontra
        have hkmem : td.task_id ∉ st.tasks.map Prod.fst := by
          intro hmem
          obtain ⟨p, hp, hpe⟩ := List.mem_map.mp hmem
          have hcontra : st.hasTask td.task_id = true := by
            simp only [QueueState.hasTask, List.any_eq_true]
            exact ⟨p, hp, by simp [hpe]⟩
          rw [habs] at hcontra
          cases hcontra
        have hq' : (st.queue ++ [td.task_id]).Nodup := by
          simp [List.nodup_append, hq, hqmem]
        have hk' : (((⟨st.tasks ++ [(td.task_id, mt)], st.queue ++ [td.task_id]⟩ :
            QueueState).tasks).map Prod.fst).Nodup := by
          simp only []
          simp [List.map_append, List.nodup_append, hk, hkmem]
        have hsub' : ∀ id, id ∈ (⟨st.tasks ++ [(td.task_id, mt)],
            st.queue ++ [td.task_id]⟩ : QueueState).queue →
            QueueState.hasTask ⟨st.tasks ++ [(td.task_id, mt)],
              st.queue ++ [td.task_id]⟩ id = true := by
          intro id hmem
          simp only [List.mem_append, List.mem_singleton] at hmem
          simp only [QueueState.hasTask, List.any_append]
          rcases hmem with hmem | rfl
          · have hres := hsub id hmem
            simp only [QueueState.hasTask] at hres
            simp [hres]
          · simp
        obtain ⟨newIds, h1, h2, h3, h4, h5⟩ := ih _ hq' hk' hsub'
        refine ⟨td.task_id :: newIds, ?_, ?_, h3, h4, h5⟩
        · rw [h1]; simp
        · intro id hid
          rcases List.mem_cons.mp hid with rfl | hid'
          · exact habs
          · have h2' := h2 id hid'
            simp only [QueueState.hasTask, List.any_append,
              Bool.or_eq_false_iff] at h2'
            simpa [QueueState.hasTask] using h2'.1

/-- **C6**: startup requeue enqueues each persisted queued task at most once:
the queue after recovery is the old queue followed by a duplicate-free list
of fresh ids, none of which was already resident in the in-memory task map;
the resulting queue has at most one occurrence per id and the map at most
one entry per id; and every queued id is resident. -/
theorem requeue_at_most_once (configs : List ApiConfig) (maxConc : Nat)
    (db : List TaskRecord) (st : QueueState)
    (hq : st.queue.Nodup) (hk : (st.tasks.map Prod.fst).Nodup)
    (hsub : ∀ id, id ∈ st.queue → st.hasTask id = true) :
    ∃ newIds : List String,
      (requeue_pending_tasks configs maxConc db st).1.queue = st.queue ++ newIds ∧
      newIds.Nodup ∧
      (∀ id ∈ newIds, st.hasTask id = false) ∧
      (requeue_pending_tasks configs maxConc db st).1.queue.Nodup ∧
      (((requeue_pending_tasks configs maxConc db st).1.tasks).map Prod.fst).Nodup := by
  obtain ⟨newIds, h1, h2, h3, h4, h5⟩ := foldl_requeue_spec configs maxConc
    (db.filter (fun r => r.status == TaskStatus.queued)) st hq hk hsub
  refine ⟨newIds, h1, ?_, h2, h3, h4⟩
  have hnd := h3
  rw [h1] at hnd
  exact hnd.of_append_right

/-- Witness for `requeue_at_most_once`: one resident task `t1` and a fresh
persisted task `t2`, against the concrete config list. -/
theorem requeue_at_most_once_witness :
    ∃ newIds : List String,
      (requeue_pending_tasks c7Configs 2 [c6ResidentRecord, c6FreshRecord]
        ⟨[("t1", c6Resident)], ["t1"]⟩).1.queue = ["t1"] ++ newIds ∧
      newIds.Nodup ∧
      (∀ id ∈ newIds, QueueState.hasTask ⟨[("t1", c6Resident)], ["t1"]⟩ id = false) ∧
      (requeue_pending_tasks c7Configs 2 [c6ResidentRecord, c6FreshRecord]
        ⟨[("t1", c6Resident)], ["t1"]⟩).1.queue.Nodup ∧
      (((requeue_pending_tasks c7Configs 2 [c6ResidentRecord, c6FreshRecord]
        ⟨[("t1", c6Resident)], ["t1"]⟩).1.tasks).map Prod.fst).Nodup :=
  requeue_at_most_once c7Configs 2 [c6ResidentRecord, c6FreshRecord]
    ⟨[("t1", c6Resident)], ["t1"]⟩ (by decide) (by decide)
    (by intro id hid; simp only [List.mem_singleton] at hid; subst hid; decide)

end AigPic
